import Mathlib

/-!
Verification of the Gate/matrix data model of `zquantum.core.circuit.gates._gate`
and the symbolic-expression conversion of
`zquantum.core.circuit.conversions.symbolic_expressions`.

The Python code manipulates sympy expressions.  We shallowly embed the
fragment of sympy that gate matrices actually contain after sympy's
automatic canonicalization: numeric literals (sympy `Integer`, `Rational`,
`Float` and the numeric complex combinations `a + b*I`, identified by their
exact value, with real and imaginary parts modelled as rationals),
free symbols, and symbolic sums and products.  Machine floats are modelled
as exact rationals; `np.allclose`'s comparison
`|a - b| <= atol + rtol * |b|` (atol = 1e-8, rtol = 1e-5, complex modulus)
is decided exactly over the rationals by squaring.
-/

deriving instance DecidableEq for Except

/-- Model of a sympy scalar expression as stored in a gate matrix.
`num r i` is a numeric literal with exact value `r + i*I` (sympy keeps
numeric subterms collapsed by automatic evaluation, so a numeric literal is
a single leaf); `sym` is a free `sympy.Symbol`; `add`/`mul` are symbolic
sums and products (sympy `Add` / `Mul` nodes that survive canonicalization,
i.e. contain at least one free symbol). -/
inductive Expr where
  | num (re im : ℚ)
  | sym (name : String)
  | add (a b : Expr)
  | mul (a b : Expr)
deriving DecidableEq, Repr

/-- Free symbols of an expression: models `sympy.Expr.free_symbols`
(as a set of symbol names). -/
def Expr.freeSymbols : Expr → Finset String
  | .num _ _ => ∅
  | .sym s => {s}
  | .add a b => a.freeSymbols ∪ b.freeSymbols
  | .mul a b => a.freeSymbols ∪ b.freeSymbols

/-- Numeric value of an expression, when it has one.  `some (r, i)` models a
successful `complex(sympy.re(e), sympy.im(e))` conversion with value
`r + i*I`; `none` models the `TypeError` Python raises when `float()` is
applied to the unevaluated `re`/`im` of an expression that still contains
free symbols. -/
def Expr.complexValue : Expr → Option (ℚ × ℚ)
  | .num r i => some (r, i)
  | .sym _ => none
  | .add a b =>
    match a.complexValue, b.complexValue with
    | some (r1, i1), some (r2, i2) => some (r1 + r2, i1 + i2)
    | _, _ => none
  | .mul a b =>
    match a.complexValue, b.complexValue with
    | some (r1, i1), some (r2, i2) => some (r1 * r2 - i1 * i2, r1 * i2 + i1 * r2)
    | _, _ => none

/-- Models `isinstance(e, (sympy.Number, sympy.Mul, sympy.Add))`.
A numeric leaf is a sympy `Number` when its imaginary part is zero and an
`Add`/`Mul` combination with `I` otherwise, so it satisfies the test either
way; symbolic sums and products are sympy `Add`/`Mul` instances and satisfy
the test as well; a bare `Symbol` does not. -/
def Expr.isNumberMulOrAdd : Expr → Bool
  | .num _ _ => true
  | .sym _ => false
  | .add _ _ => true
  | .mul _ _ => true

/-- Models `isinstance(e, sympy.Expr)`.  Every scalar element of a sympy
`Matrix` is sympified on construction and on assignment, and sympy
`Integer`, `Rational`, `Float`, `Symbol`, `Add` and `Mul` are all
subclasses of `sympy.Expr`, so this test is true for every matrix
element. -/
def Expr.isSympyExpr : Expr → Bool
  | _ => true

/-- `np.allclose` absolute tolerance (numpy default `atol=1e-8`). -/
def atol : ℚ := 1 / 100000000

/-- `np.allclose` relative tolerance (numpy default `rtol=1e-5`). -/
def rtol : ℚ := 1 / 100000

/-- Decides `Real.sqrt z2 ≤ c + r * Real.sqrt w2` for nonnegative
`z2 w2 c r`, entirely in rational arithmetic (square both sides, then
square once more when the remainder is nonnegative). -/
def sqrtLe (z2 c r w2 : ℚ) : Bool :=
  let d := z2 - c * c - r * r * w2
  d ≤ 0 || d * d ≤ 4 * (c * c) * (r * r) * w2

/-- Models `np.allclose(a, b)` on two complex numbers:
`abs(a - b) <= atol + rtol * abs(b)` with the complex modulus, decided
exactly over the rationals via `sqrtLe`. -/
def allclose (a b : ℚ × ℚ) : Bool :=
  sqrtLe ((a.1 - b.1) * (a.1 - b.1) + (a.2 - b.2) * (a.2 - b.2)) atol rtol
    (b.1 * b.1 + b.2 * b.2)

/-- Error message modelling the `TypeError` raised when `complex()` is
applied to a sympy expression that still contains free symbols. -/
def typeErrorMsg : String := "TypeError: Cannot convert expression to float"

/-- Model of `Gate.are_elements_equal(element, another_element)`.
Source:
`if element == another_element: return True`
`elif isinstance(another_element, (sympy.Number, sympy.Mul, sympy.Add)) and`
`     isinstance(another_element, (sympy.Number, sympy.Mul, sympy.Add)):`
(the source tests `another_element` in both conjuncts of the `and`)
`  return np.allclose(complex(sympy.re(element), sympy.im(element)), ...)`
`else: return False`.
The `Except` return models the fact that the `complex(...)` conversion
raises `TypeError` when its argument still contains free symbols. -/
def are_elements_equal (element another_element : Expr) : Except String Bool :=
  if element = another_element then .ok true
  else if another_element.isNumberMulOrAdd && another_element.isNumberMulOrAdd then
    match element.complexValue, another_element.complexValue with
    | some a, some b => .ok (allclose a b)
    | _, _ => .error typeErrorMsg
  else .ok false

/-- Model of a Python runtime value that can appear in the sets compared by
`__eq__` and tested by `evaluate`: either a plain `str` or a
`sympy.Symbol`.  A `str` and a `Symbol` never collide inside a Python
`set`, because `hash('x') != hash(Symbol('x'))`, so set membership treats
them as distinct; the model makes them distinct values. -/
inductive PyObj where
  | pyStr (s : String)
  | pySymbol (s : String)
deriving DecidableEq, Repr

/-- Model of a `sympy.Matrix`: a shape and the elements in row-major order
(the order in which `for element in matrix` iterates). -/
structure SympyMatrix where
  rows : ℕ
  cols : ℕ
  data : List Expr
deriving DecidableEq, Repr

/-- `matrix.shape`. -/
def SympyMatrix.shape (m : SympyMatrix) : ℕ × ℕ := (m.rows, m.cols)

/-- `len(matrix)`: sympy returns the number of elements, `rows * cols`. -/
def SympyMatrix.len (m : SympyMatrix) : ℕ := m.rows * m.cols

/-- A sympy matrix always stores exactly `rows * cols` elements; matrices of
the model are considered only under this invariant. -/
def SympyMatrix.wf (m : SympyMatrix) : Prop := m.data.length = m.rows * m.cols

/-- Apply a function to every element (the `for index, element in
enumerate(matrix): matrix[index] = f(element)` loops of the source). -/
def SympyMatrix.mapElems (f : Expr → Expr) (m : SympyMatrix) : SympyMatrix :=
  ⟨m.rows, m.cols, m.data.map f⟩

/-- Class tag distinguishing the two concrete kinds of gate in the source
(`CustomGate` versus subclasses of `SpecializedGate`). -/
inductive GateClass where
  | custom
  | specialized
deriving DecidableEq, Repr

/-- Model of a gate object: the `qubits` tuple, the (computed) `matrix`,
and the class of the instance. -/
structure Gate where
  qubits : List ℤ
  matrix : SympyMatrix
  cls : GateClass
deriving DecidableEq, Repr

/-- `Gate.symbolic_params`: the set
`{symbol for element in matrix if isinstance(element, sympy.Expr)
 for symbol in element.free_symbols}`.
Its members are `sympy.Symbol` objects (not strings).  The
`isinstance` filter is true for every element (see `Expr.isSympyExpr`). -/
def Gate.symbolic_params (g : Gate) : Finset PyObj :=
  (g.matrix.data.foldr
    (fun (element : Expr) (acc : Finset String) =>
      (if element.isSympyExpr then element.freeSymbols else ∅) ∪ acc) ∅).image
    PyObj.pySymbol

/-- `Gate.is_valid_operator(matrix, qubits)`:
`matrix.shape == 2 * (2 ** len(qubits),)`. -/
def Gate.is_valid_operator (matrix : SympyMatrix) (qubits : List ℤ) : Bool :=
  matrix.shape = (2 ^ qubits.length, 2 ^ qubits.length)

/-- `Gate.are_qubits_unique(qubits)`: `len(qubits) == len(set(qubits))`.
The size of the Python set of the entries is the length of the
deduplicated list. -/
def Gate.are_qubits_unique (qubits : List ℤ) : Bool :=
  qubits.length = qubits.dedup.length

/-- `Gate.is_parameterized`:
`for element in self.matrix: if isinstance(element, sympy.Expr): return
True` and `False` after the loop. -/
def Gate.is_parameterized (g : Gate) : Bool :=
  g.matrix.data.any (fun element => element.isSympyExpr)

/-- Evaluation of numeric subterms: models both sympy's automatic
canonicalization of fully numeric sums/products and `Expr.evalf()`, which
reduces every fully numeric (sub)expression to a numeric literal and
leaves subterms containing free symbols symbolic (recursing into them to
evaluate their numeric parts).  On the value-identified numeric leaves of
the model, converting `Integer`/`Rational` to `Float` is the identity. -/
def Expr.evalf (e : Expr) : Expr :=
  match e.complexValue with
  | some (r, i) => .num r i
  | none =>
    match e with
    | .num r i => .num r i
    | .sym s => .sym s
    | .add a b => .add a.evalf b.evalf
    | .mul a b => .mul a.evalf b.evalf

/-- The shape part of the `ValueError` message raised by
`CustomGate.__init__`. -/
def shapeErrorMessage (matrix : SympyMatrix) (qubits : List ℤ) : String :=
  "Passed matrix has shape (" ++ toString matrix.rows ++ ", " ++
    toString matrix.cols ++ ") and cannot act on " ++
    toString qubits.length ++ " qubits."

/-- Model of `CustomGate.__init__(matrix, qubits)`: reject an invalid shape
with a `ValueError` reporting the shape, reject duplicate qubits, then
store a deep copy of the matrix with every element replaced by
`element.evalf()`. -/
def CustomGate.init (matrix : SympyMatrix) (qubits : List ℤ) :
    Except String Gate :=
  if !Gate.is_valid_operator matrix qubits then
    .error (shapeErrorMessage matrix qubits)
  else if !Gate.are_qubits_unique qubits then
    .error "Qubits need to be unique."
  else
    .ok ⟨qubits, matrix.mapElems Expr.evalf, .custom⟩

/-- Elementwise comparison loop of `Gate.__eq__`: Python's
`any(not self.are_elements_equal(element, another_element) for ... in
zip(...))` evaluates the pairs in order and propagates the first
`TypeError` raised by `are_elements_equal`. -/
def anyElementsUnequal : List (Expr × Expr) → Except String Bool
  | [] => .ok false
  | (a, b) :: rest =>
    match are_elements_equal a b with
    | .error e => .error e
    | .ok true => anyElementsUnequal rest
    | .ok false => .ok true

/-- Body of `Gate.__eq__` once the attributes of the right-hand operand
have been read: compare qubit counts, the qubit sequences position by
position, the element counts, the `symbolic_params` sets, and finally the
matrices elementwise. -/
def gateEqCore (q1 : List ℤ) (m1 : SympyMatrix) (p1 : Finset PyObj)
    (q2 : List ℤ) (m2 : SympyMatrix) (p2 : Finset PyObj) :
    Except String Bool :=
  if q1.length ≠ q2.length then .ok false
  else if (q1.zip q2).any (fun p => decide (p.1 ≠ p.2)) then .ok false
  else if m1.len ≠ m2.len then .ok false
  else if p1 ≠ p2 then .ok false
  else
    match anyElementsUnequal (m1.data.zip m2.data) with
    | .error e => .error e
    | .ok b => .ok !b

/-- Model of `Gate.__eq__(self, another_gate)` on two gate objects. -/
def gateEq (g1 g2 : Gate) : Except String Bool :=
  gateEqCore g1.qubits g1.matrix g1.symbolic_params
    g2.qubits g2.matrix g2.symbolic_params

/-- A Python value that can appear as the right-hand operand of `==` on a
gate: another gate, `None`, or an `int`. -/
inductive PyOperand where
  | gateObj (g : Gate)
  | pyNone
  | pyInt (n : ℤ)

/-- Python type name of an operand, as it appears in an
`AttributeError`. -/
def PyOperand.typeName : PyOperand → String
  | .gateObj _ => "Gate"
  | .pyNone => "NoneType"
  | .pyInt _ => "int"

/-- The `AttributeError` message raised when an attribute is read from an
object that lacks it. -/
def attributeError (tn attr : String) : String :=
  "AttributeError: " ++ tn ++ " object has no attribute " ++ attr

/-- Attribute lookup `other.qubits`: succeeds only on gate objects. -/
def PyOperand.getattrQubits : PyOperand → Except String (List ℤ)
  | .gateObj g => .ok g.qubits
  | other => .error (attributeError other.typeName "qubits")

/-- Attribute lookup `other.matrix`. -/
def PyOperand.getattrMatrix : PyOperand → Except String SympyMatrix
  | .gateObj g => .ok g.matrix
  | other => .error (attributeError other.typeName "matrix")

/-- Attribute lookup `other.symbolic_params`. -/
def PyOperand.getattrSymbolicParams : PyOperand → Except String (Finset PyObj)
  | .gateObj g => .ok g.symbolic_params
  | other => .error (attributeError other.typeName "symbolic_params")

/-- Model of `Gate.__eq__` as invoked on an arbitrary right-hand operand:
the method starts with `len(another_gate.qubits)` without any type check,
so for a non-gate operand the attribute lookup raises `AttributeError`
(Python falls back to the reflected comparison only on `NotImplemented`,
not on an exception). -/
def gateEqPy (g : Gate) (other : PyOperand) : Except String Bool := do
  let q2 ← other.getattrQubits
  let m2 ← other.getattrMatrix
  let p2 ← other.getattrSymbolicParams
  gateEqCore g.qubits g.matrix g.symbolic_params q2 m2 p2

/-- `copy.deepcopy` of a gate: produces a structurally identical object; in
a value model it is the same value. -/
def gateDeepcopy (g : Gate) : Gate := g

/-- Substitution `element.subs(symbols_map)`: sympy sympifies the string
keys of the dictionary to symbols and substitutes simultaneously; keys
that name no symbol of the expression are unused. -/
def Expr.subs (symbols_map : List (String × Expr)) : Expr → Expr
  | .num r i => .num r i
  | .sym s =>
    match symbols_map.lookup s with
    | some v => v
    | none => .sym s
  | .add a b => .add (a.subs symbols_map) (b.subs symbols_map)
  | .mul a b => .mul (a.subs symbols_map) (b.subs symbols_map)

/-- `round(x, 16)`: rounding to 16 decimal digits.  Python rounds ties to
even; the model rounds ties up, which differs only at exact decimal ties
of the 17th digit and is immaterial at the tolerances of this
development. -/
def round16 (q : ℚ) : ℚ :=
  (⌊q * 10000000000000000 + 1 / 2⌋ : ℚ) / 10000000000000000

/-- The two kinds of non-fatal `warnings.warn` calls made by
`Gate.evaluate`. -/
inductive GWarning where
  | not_parameterized
  | symbols_mismatch
deriving DecidableEq, Repr

/-- Result of a call to `Gate.evaluate`: the returned value (or the
exception it raises), the warnings emitted, and the state of the receiver
after the call. -/
structure EvalOutcome where
  result : Except String Gate
  warnings : List GWarning
  selfAfter : Gate
deriving Repr

/-- Body of the element loop of `Gate.evaluate`:
`new_element = element.subs(symbols_map).evalf()`, and if
`sympy.re(new_element)` and `sympy.im(new_element)` are both `Number`s
(equivalently, the element has no free symbols left) it is collapsed to
`complex(round(re, 16), round(im, 16))`. -/
def collapseElement (symbols_map : List (String × Expr)) (element : Expr) :
    Expr :=
  let new_element := (element.subs symbols_map).evalf
  match new_element.complexValue with
  | some (r, i) => .num (round16 r) (round16 i)
  | none => new_element

/-- Model of `Gate.evaluate(self, symbols_map)`.  The receiver is never
assigned to (the loop writes into `copy.deepcopy(self.matrix)`), so
`selfAfter` is the unchanged receiver.  The membership test
`symbol not in self.symbolic_params` compares the `str` keys of
`symbols_map` against a set of `sympy.Symbol` objects. -/
def Gate.evaluate (g : Gate) (symbols_map : List (String × Expr)) :
    EvalOutcome :=
  if !g.is_parameterized then
    ⟨.ok (gateDeepcopy g), [GWarning.not_parameterized], g⟩
  else
    let warns :=
      if symbols_map.any
          (fun kv => decide (PyObj.pyStr kv.1 ∉ g.symbolic_params)) then
        [GWarning.symbols_mismatch]
      else []
    let evaluated_matrix := g.matrix.mapElems (collapseElement symbols_map)
    ⟨CustomGate.init evaluated_matrix g.qubits, warns, g⟩

/-- The gate invariant of the data model: a valid operator shape, unique
qubits, and a well-formed element list.  Every gate the library constructs
satisfies it (`CustomGate.__init__` validates it outright). -/
def Gate.wf (g : Gate) : Prop :=
  Gate.is_valid_operator g.matrix g.qubits = true ∧
    Gate.are_qubits_unique g.qubits = true ∧ g.matrix.wf

/-- Digit character for a digit value below ten. -/
def digitToChar : ℕ → Char
  | 0 => '0' | 1 => '1' | 2 => '2' | 3 => '3' | 4 => '4'
  | 5 => '5' | 6 => '6' | 7 => '7' | 8 => '8' | 9 => '9'
  | _ => 'X'

/-- Decimal digits of a natural number, most significant first. -/
def encodeNat (n : ℕ) : List Char :=
  if n = 0 then ['0'] else (Nat.digits 10 n).reverse.map digitToChar

/-- Decimal form of an integer, with a leading minus sign when negative. -/
def encodeInt (i : ℤ) : List Char :=
  if i < 0 then '-' :: encodeNat i.natAbs else encodeNat i.natAbs

/-- Textual form of a rational: numerator, a slash, denominator. -/
def encodeRat (q : ℚ) : List Char :=
  encodeInt q.num ++ '/' :: encodeNat q.den

/-- Characters allowed in a symbol name by the textual grammar of the
model: letters and underscores (the delimiters of the grammar are then
unambiguous). -/
def isNameChar (c : Char) : Bool := c.isAlpha || c == '_'

/-- Printer for expressions: a functional textual form in the style of
sympy's expression printing (`srepr` prints `Add(Symbol('x'), Integer(1))`;
the model's grammar differs only in surface details).  It models the
`str(element)` call of `Gate.to_dict`: an injective, re-parseable textual
form of the expression. -/
def encodeExpr : Expr → List Char
  | .num r i => 'C' :: '(' :: (encodeRat r ++ ',' :: encodeRat i ++ [')'])
  | .sym s => 'S' :: '(' :: (s.data ++ [')'])
  | .add a b => 'A' :: '(' :: (encodeExpr a ++ ',' :: encodeExpr b ++ [')'])
  | .mul a b => 'M' :: '(' :: (encodeExpr a ++ ',' :: encodeExpr b ++ [')'])

/-- `str(element)` of the model. -/
def sympyStr (e : Expr) : String := String.mk (encodeExpr e)

/-- Well-formed symbol names for the textual grammar: nonempty, made of
letters and underscores (as the symbol names of the library's gates
are). -/
def exprNamesOk : Expr → Bool
  | .num _ _ => true
  | .sym s => !s.data.isEmpty && s.data.all isNameChar
  | .add a b => exprNamesOk a && exprNamesOk b
  | .mul a b => exprNamesOk a && exprNamesOk b

/-- The language-agnostic expression tree of
`conversions.symbolic_expressions`: a `Symbol` node (a name), a
`FunctionCall` node (a function name and argument trees), or a plain
number (modelled, like sympy numbers, by its exact complex-rational
value). -/
inductive ExpressionTree where
  | symbol (name : String)
  | functionCall (name : String) (args : List ExpressionTree)
  | number (re im : ℚ)

/-- The `type(expression).__name__`-style class name of an expression, as
interpolated into the `NotImplementedError` message.  A numeric leaf
prints the class of its sympy form (`Number` when the imaginary part is
zero, the `Mul`-with-`I` combination otherwise). -/
def sympyTypeName : Expr → String
  | .num _ i => if i = 0 then "Number" else "Mul"
  | .sym _ => "Symbol"
  | .add _ _ => "Add"
  | .mul _ _ => "Mul"

/-- The message of the `NotImplementedError` raised by the
`singledispatch` fallback (the source's typo `currentlyl` kept
verbatim). -/
def notImplementedMessage (expression : Expr) : String :=
  "Expression " ++ sympyStr expression ++ " of type " ++
    sympyTypeName expression ++ " is currentlyl not supported"

/-- Model of `expression_tree_from_sympy`: a `functools.singledispatch`
function whose only registered implementation in the source is the
fallback, which raises `NotImplementedError` naming the expression and its
type.  No overload for numbers, symbols or operators is registered
anywhere in the sources, so every call takes the fallback. -/
def expression_tree_from_sympy (expression : Expr) :
    Except String ExpressionTree :=
  .error (notImplementedMessage expression)

/-- The 2×2 identity matrix, a fully numeric valid one-qubit operator. -/
def idMatrix : SympyMatrix :=
  ⟨2, 2, [.num 1 0, .num 0 0, .num 0 0, .num 1 0]⟩

/-- The gate `CustomGate(idMatrix, (0,))` constructs. -/
def idGate : Gate := ⟨[0], idMatrix, .custom⟩

/-- A one-qubit matrix whose top-left element is the free symbol `x`. -/
def xMatrix : SympyMatrix :=
  ⟨2, 2, [.sym "x", .num 0 0, .num 0 0, .num 1 0]⟩

/-- The gate `CustomGate(xMatrix, (0,))` constructs. -/
def xGate : Gate := ⟨[0], xMatrix, .custom⟩

/-- A value slightly above the absolute tolerance: `1.000005e-8`.  It
satisfies `|0 - v| <= atol + rtol * |v|` but not `|v - 0| <= atol`,
exposing the asymmetry of `np.allclose`. -/
def tinyVal : ℚ := 1000005 / 100000000000000

/-- A fully numeric one-qubit matrix with top-left element `0`. -/
def zeroCornerMatrix : SympyMatrix :=
  ⟨2, 2, [.num 0 0, .num 0 0, .num 0 0, .num 1 0]⟩

/-- The same matrix with top-left element `tinyVal`. -/
def tinyCornerMatrix : SympyMatrix :=
  ⟨2, 2, [.num tinyVal 0, .num 0 0, .num 0 0, .num 1 0]⟩

/-- The gate constructed from `zeroCornerMatrix` on qubit 0. -/
def zeroCornerGate : Gate := ⟨[0], zeroCornerMatrix, .custom⟩

/-- The gate constructed from `tinyCornerMatrix` on qubit 0. -/
def tinyCornerGate : Gate := ⟨[0], tinyCornerMatrix, .custom⟩

/-- A 3×3 matrix (an invalid shape for any qubit count). -/
def badShapeMatrix : SympyMatrix :=
  ⟨3, 3, List.replicate 9 (.num 0 0)⟩

theorem are_elements_equal_self (a : Expr) :
    are_elements_equal a a = .ok true := by
  simp [are_elements_equal]

theorem anyElementsUnequal_zip_self (l : List Expr) :
    anyElementsUnequal (l.zip l) = .ok false := by
  induction l with
  | nil => rfl
  | cons a l ih =>
    simp only [List.zip_cons_cons, anyElementsUnequal, are_elements_equal_self]
    exact ih

theorem mem_zip_self {x y : ℤ} {l : List ℤ} (h : (x, y) ∈ l.zip l) : x = y := by
  induction l with
  | nil => simp at h
  | cons a l ih =>
    rw [List.zip_cons_cons, List.mem_cons] at h
    rcases h with h | h
    · injection h with h1 h2
      exact h1.trans h2.symm
    · exact ih h

/-- Shared helper: `Gate.__eq__` is reflexive on every gate object. -/
theorem gateEq_refl (g : Gate) : gateEq g g = .ok true := by
  unfold gateEq gateEqCore
  simp [anyElementsUnequal_zip_self]
  exact fun x y h => mem_zip_self h

/-- C2: the spec says two elements with unresolved free symbols that are
not structurally equal compare as (boolean) unequal; on the pair
`(Symbol('x'), Integer(2))` the code instead raises `TypeError`: the
`isinstance` guard tests `another_element` twice (never `element`), so the
symbolic left element reaches `complex(sympy.re(x), sympy.im(x))`, which
cannot be converted to a number. -/
theorem are_elements_equal_raises_on_symbolic_element :
    are_elements_equal (Expr.sym "x") (Expr.num 2 0) =
      .error typeErrorMsg := by
  rfl

/-- C3: the claim says `is_parameterized` is false for a gate with no free
variables; for the fully numeric identity gate the code returns true,
because `isinstance(element, sympy.Expr)` holds for every sympy matrix
element (numbers included).  The `symbolic_params` half of the claim does
hold: the set is empty. -/
theorem is_parameterized_true_for_numeric_gate :
    CustomGate.init idMatrix [0] = .ok idGate ∧
      idGate.is_parameterized = true ∧ idGate.symbolic_params = ∅ := by
  refine ⟨rfl, rfl, ?_⟩
  decide

/-- C8 counterexample: gate equality is not symmetric.  Both gates are
constructed by `CustomGate.__init__` from valid 2×2 matrices on qubit 0;
their top-left elements are `0` and `1.000005e-8`.  Comparing left to
right, `np.allclose(0, 1.000005e-8)` holds (the relative-tolerance term is
taken on the right operand), but comparing right to left,
`np.allclose(1.000005e-8, 0)` fails, so `g1 == g2` is `True` while
`g2 == g1` is `False`. -/
theorem gate_eq_not_symmetric :
    CustomGate.init zeroCornerMatrix [0] = .ok zeroCornerGate ∧
      CustomGate.init tinyCornerMatrix [0] = .ok tinyCornerGate ∧
      gateEq zeroCornerGate tinyCornerGate = .ok true ∧
      gateEq tinyCornerGate zeroCornerGate = .ok false := by
  refine ⟨rfl, rfl, ?_, ?_⟩ <;> with_unfolding_all decide

/-- C8 amended: gate equality is reflexive and invariant under
deep-copying (the remaining two parts of the claim); symmetry fails, as
`gate_eq_not_symmetric` shows. -/
theorem gate_eq_refl_and_deepcopy_invariant (g : Gate) :
    gateEq g g = .ok true ∧ gateEq g (gateDeepcopy g) = .ok true :=
  ⟨gateEq_refl g, gateEq_refl g⟩

/-- C10: `Gate.__eq__` immediately reads `another_gate.qubits`, so
comparing a gate with `None` or with an integer raises `AttributeError`
instead of returning `False`. -/
theorem gate_eq_raises_on_non_gate_operand (g : Gate) (n : ℤ) :
    gateEqPy g PyOperand.pyNone =
        .error (attributeError "NoneType" "qubits") ∧
      gateEqPy g (PyOperand.pyInt n) =
        .error (attributeError "int" "qubits") := by
  exact ⟨rfl, rfl⟩

/-- C9 counterexample: the claim says the tree conversion succeeds on
numbers; `expression_tree_from_sympy(Integer(5))` raises
`NotImplementedError` instead, because the source registers no
implementation besides the fallback. -/
theorem expression_tree_number_rejected :
    (expression_tree_from_sympy (Expr.num 5 0)).isOk = false := by
  rfl

/-- C9 amended: the conversion's supported grammar is empty in the source:
every expression — numbers and symbols included — takes the
`singledispatch` fallback and fails with the "not implemented" error,
whose message names the offending expression and its type. -/
theorem expression_tree_always_not_implemented (e : Expr) :
    expression_tree_from_sympy e = .error (notImplementedMessage e) ∧
      ∃ pre post, (notImplementedMessage e).data =
        pre ++ (sympyTypeName e).data ++ post := by
  refine ⟨rfl, ("Expression " ++ sympyStr e ++ " of type ").data,
    " is currentlyl not supported".data, ?_⟩
  simp [notImplementedMessage, String.data_append]

theorem is_valid_operator_iff (m : SympyMatrix) (q : List ℤ) :
    Gate.is_valid_operator m q = true ↔
      (m.rows = 2 ^ q.length ∧ m.cols = 2 ^ q.length) := by
  simp [Gate.is_valid_operator, SympyMatrix.shape, Prod.ext_iff]

theorem are_qubits_unique_iff (q : List ℤ) :
    Gate.are_qubits_unique q = true ↔ q.Nodup := by
  simp only [Gate.are_qubits_unique, decide_eq_true_eq]
  constructor
  · intro h
    exact List.dedup_eq_self.mp ((q.dedup_sublist).eq_of_length h.symm)
  · intro h
    rw [List.dedup_eq_self.mpr h]

/-- C4: `CustomGate.__init__` accepts exactly the square matrices of side
`2 ** len(qubits)` with pairwise-distinct qubits; any other shape is
rejected with a `ValueError` reporting the offending shape, and a repeated
qubit index prevents successful construction regardless of the matrix. -/
theorem custom_gate_construction_spec (m : SympyMatrix) (q : List ℤ) :
    ((∃ g, CustomGate.init m q = Except.ok g) ↔
      (m.rows = 2 ^ q.length ∧ m.cols = 2 ^ q.length ∧ q.Nodup)) ∧
    (¬(m.rows = 2 ^ q.length ∧ m.cols = 2 ^ q.length) →
      CustomGate.init m q = Except.error (shapeErrorMessage m q)) ∧
    (¬ q.Nodup → ∀ g, CustomGate.init m q ≠ Except.ok g) := by
  by_cases hs : m.rows = 2 ^ q.length ∧ m.cols = 2 ^ q.length
  · have hv : Gate.is_valid_operator m q = true :=
      (is_valid_operator_iff m q).mpr hs
    obtain ⟨h1, h2⟩ := hs
    by_cases hn : q.Nodup
    · have hu : Gate.are_qubits_unique q = true :=
        (are_qubits_unique_iff q).mpr hn
      simp [CustomGate.init, hv, hu, h1, h2, hn]
    · have hu : Gate.are_qubits_unique q = false := by
        cases h : Gate.are_qubits_unique q
        · rfl
        · exact absurd ((are_qubits_unique_iff q).mp h) hn
      simp [CustomGate.init, hv, hu, h1, h2, hn]
  · have hv : Gate.is_valid_operator m q = false := by
      cases h : Gate.is_valid_operator m q
      · rfl
      · exact absurd ((is_valid_operator_iff m q).mp h) hs
    refine ⟨⟨fun ⟨g, hg⟩ => by simp [CustomGate.init, hv] at hg,
             fun h => absurd ⟨h.1, h.2.1⟩ hs⟩,
            fun _ => by simp [CustomGate.init, hv],
            fun _ g => by simp [CustomGate.init, hv]⟩

/-- Witness for C4 at the spec's concrete scenario: a 3×3 matrix with one
qubit is rejected with the shape-reporting error. -/
theorem custom_gate_construction_spec_witness :
    CustomGate.init badShapeMatrix [0] =
      Except.error (shapeErrorMessage badShapeMatrix [0]) :=
  (custom_gate_construction_spec badShapeMatrix [0]).2.1 (by decide)

theorem is_parameterized_of_ne_nil (g : Gate) (h : g.matrix.data ≠ []) :
    g.is_parameterized = true := by
  cases hd : g.matrix.data with
  | nil => exact absurd hd h
  | cons a l => simp [Gate.is_parameterized, hd, Expr.isSympyExpr]

theorem is_valid_operator_mapElems (f : Expr → Expr) (m : SympyMatrix)
    (q : List ℤ) :
    Gate.is_valid_operator (m.mapElems f) q = Gate.is_valid_operator m q :=
  rfl

/-- C5: on every gate satisfying the data-model invariant, `evaluate`
returns (for any substitution mapping) a successfully constructed
`CustomGate` on the same qubit tuple, and the receiver is unchanged by the
call. -/
theorem evaluate_returns_new_custom_gate (g : Gate)
    (symbols_map : List (String × Expr)) (hwf : g.wf) :
    (∃ result, (g.evaluate symbols_map).result = Except.ok result ∧
        result.cls = GateClass.custom ∧ result.qubits = g.qubits) ∧
      (g.evaluate symbols_map).selfAfter = g := by
  obtain ⟨hv, hu, hw⟩ := hwf
  have hne : g.matrix.data ≠ [] := by
    obtain ⟨hr, hc⟩ := (is_valid_operator_iff _ _).mp hv
    have hpos : (0:ℕ) < 2 ^ g.qubits.length * 2 ^ g.qubits.length := by
      positivity
    intro h
    rw [SympyMatrix.wf, hr, hc, h] at hw
    rw [List.length_nil] at hw
    omega
  have hp := is_parameterized_of_ne_nil g hne
  unfold Gate.evaluate
  rw [hp]
  refine ⟨⟨⟨g.qubits, (g.matrix.mapElems (collapseElement symbols_map)).mapElems
    Expr.evalf, GateClass.custom⟩, ?_, rfl, rfl⟩, rfl⟩
  show CustomGate.init _ g.qubits = _
  unfold CustomGate.init
  rw [is_valid_operator_mapElems, hv, hu]
  rfl

/-- Witness for C5: `evaluate` on the identity gate with an unrelated
mapping returns a custom gate on the same qubits and leaves the receiver
unchanged. -/
theorem evaluate_returns_new_custom_gate_witness :
    (∃ result, (idGate.evaluate [("y", Expr.num 3 0)]).result =
        Except.ok result ∧
        result.cls = GateClass.custom ∧ result.qubits = idGate.qubits) ∧
      (idGate.evaluate [("y", Expr.num 3 0)]).selfAfter = idGate :=
  evaluate_returns_new_custom_gate idGate [("y", Expr.num 3 0)]
    ⟨rfl, rfl, rfl⟩

/-- C6: the claim says the mismatch warning fires iff the mapping holds a
name absent from the gate's symbolic parameter set; the code instead fires
it for every nonempty mapping, because the `str` keys of the mapping are
tested for membership in a set of `sympy.Symbol` objects and never found.
Here the gate's only parameter is `x` and the mapping's only key is `"x"`,
yet the warning fires; the substitution itself still succeeds (the result
is the evaluated identity gate, `x` having been replaced by 1). -/
theorem evaluate_mismatch_warning_always_fires :
    CustomGate.init xMatrix [0] = Except.ok xGate ∧
      xGate.symbolic_params = {PyObj.pySymbol "x"} ∧
      (xGate.evaluate [("x", Expr.num 1 0)]).warnings =
        [GWarning.symbols_mismatch] ∧
      (xGate.evaluate [("x", Expr.num 1 0)]).result = Except.ok idGate := by
  refine ⟨rfl, ?_, ?_, ?_⟩ <;> with_unfolding_all decide

/-- C7: the claim says evaluating a fully numeric gate emits the
"gate is not parameterized" warning and returns a copy; because
`is_parameterized` is true for every gate (see
`is_parameterized_true_for_numeric_gate`), that branch is dead: with an
empty mapping no warning at all is emitted.  The operation does still
succeed and return a gate equal to the original, rebuilt through the
substitution path. -/
theorem evaluate_numeric_gate_warning_bug :
    CustomGate.init idMatrix [0] = Except.ok idGate ∧
      (idGate.evaluate []).warnings = [] ∧
      (idGate.evaluate []).result = Except.ok idGate ∧
      (idGate.evaluate []).selfAfter = idGate := by
  refine ⟨rfl, ?_, ?_, ?_⟩ <;> with_unfolding_all decide

theorem Expr.complexValue_evalf (e : Expr) :
    e.evalf.complexValue = e.complexValue := by
  induction e with
  | num r i => rfl
  | sym s => rfl
  | add a b iha ihb =>
    rw [Expr.evalf]
    cases hv : (Expr.add a b).complexValue with
    | some p =>
      obtain ⟨r, i⟩ := p
      rfl
    | none =>
      show (Expr.add a.evalf b.evalf).complexValue = none
      rw [show (Expr.add a.evalf b.evalf).complexValue =
        (match a.evalf.complexValue, b.evalf.complexValue with
         | some (r1, i1), some (r2, i2) => some (r1 + r2, i1 + i2)
         | _, _ => none) from rfl]
      rw [iha, ihb]
      exact hv
  | mul a b iha ihb =>
    rw [Expr.evalf]
    cases hv : (Expr.mul a b).complexValue with
    | some p =>
      obtain ⟨r, i⟩ := p
      rfl
    | none =>
      show (Expr.mul a.evalf b.evalf).complexValue = none
      rw [show (Expr.mul a.evalf b.evalf).complexValue =
        (match a.evalf.complexValue, b.evalf.complexValue with
         | some (r1, i1), some (r2, i2) =>
             some (r1 * r2 - i1 * i2, r1 * i2 + i1 * r2)
         | _, _ => none) from rfl]
      rw [iha, ihb]
      exact hv

theorem Expr.evalf_idem (e : Expr) : e.evalf.evalf = e.evalf := by
  induction e with
  | num r i => rfl
  | sym s => rfl
  | add a b iha ihb =>
    rw [Expr.evalf]
    cases hv : (Expr.add a b).complexValue with
    | some p =>
      obtain ⟨r, i⟩ := p
      rfl
    | none =>
      show (Expr.add a.evalf b.evalf).evalf = Expr.add a.evalf b.evalf
      rw [Expr.evalf]
      rw [show (Expr.add a.evalf b.evalf).complexValue =
        (match a.evalf.complexValue, b.evalf.complexValue with
         | some (r1, i1), some (r2, i2) => some (r1 + r2, i1 + i2)
         | _, _ => none) from rfl]
      rw [Expr.complexValue_evalf, Expr.complexValue_evalf]
      have hv2 : (match a.complexValue, b.complexValue with
         | some (r1, i1), some (r2, i2) => some (r1 + r2, i1 + i2)
         | _, _ => none) = (none : Option (ℚ × ℚ)) := hv
      rw [hv2]
      show Expr.add a.evalf.evalf b.evalf.evalf = _
      rw [iha, ihb]
  | mul a b iha ihb =>
    rw [Expr.evalf]
    cases hv : (Expr.mul a b).complexValue with
    | some p =>
      obtain ⟨r, i⟩ := p
      rfl
    | none =>
      show (Expr.mul a.evalf b.evalf).evalf = Expr.mul a.evalf b.evalf
      rw [Expr.evalf]
      rw [show (Expr.mul a.evalf b.evalf).complexValue =
        (match a.evalf.complexValue, b.evalf.complexValue with
         | some (r1, i1), some (r2, i2) =>
             some (r1 * r2 - i1 * i2, r1 * i2 + i1 * r2)
         | _, _ => none) from rfl]
      rw [Expr.complexValue_evalf, Expr.complexValue_evalf]
      have hv2 : (match a.complexValue, b.complexValue with
         | some (r1, i1), some (r2, i2) =>
             some (r1 * r2 - i1 * i2, r1 * i2 + i1 * r2)
         | _, _ => none) = (none : Option (ℚ × ℚ)) := hv
      rw [hv2]
      show Expr.mul a.evalf.evalf b.evalf.evalf = _
      rw [iha, ihb]

theorem exprNamesOk_evalf (e : Expr) (h : exprNamesOk e = true) :
    exprNamesOk e.evalf = true := by
  induction e with
  | num r i => exact h
  | sym s => exact h
  | add a b iha ihb =>
    simp only [exprNamesOk, Bool.and_eq_true] at h
    rw [Expr.evalf]
    cases hv : (Expr.add a b).complexValue with
    | some p =>
      obtain ⟨r, i⟩ := p
      rfl
    | none =>
      show exprNamesOk (Expr.add a.evalf b.evalf) = true
      simp only [exprNamesOk, Bool.and_eq_true]
      exact ⟨iha h.1, ihb h.2⟩
  | mul a b iha ihb =>
    simp only [exprNamesOk, Bool.and_eq_true] at h
    rw [Expr.evalf]
    cases hv : (Expr.mul a b).complexValue with
    | some p =>
      obtain ⟨r, i⟩ := p
      rfl
    | none =>
      show exprNamesOk (Expr.mul a.evalf b.evalf) = true
      simp only [exprNamesOk, Bool.and_eq_true]
      exact ⟨iha h.1, ihb h.2⟩

theorem init_inversion {m : SympyMatrix} {q : List ℤ} {g : Gate}
    (hg : CustomGate.init m q = Except.ok g) :
    Gate.is_valid_operator m q = true ∧ Gate.are_qubits_unique q = true ∧
      g = ⟨q, m.mapElems Expr.evalf, GateClass.custom⟩ := by
  unfold CustomGate.init at hg
  cases hv : Gate.is_valid_operator m q with
  | false => rw [hv] at hg; simp at hg
  | true =>
    rw [hv] at hg
    cases hu : Gate.are_qubits_unique q with
    | false => rw [hu] at hg; simp at hg
    | true =>
      rw [hu] at hg
      simp only [Bool.not_true, Bool.false_eq_true, if_false,
        Except.ok.injEq] at hg
      exact ⟨rfl, rfl, hg.symm⟩

